import Mathlib

/-!
Verification of the adaptive form-filling / session-resilience core of the
Auto_Job_Applier_LinkedIn repository.  Python modules are shallowly embedded:
dicts become insertion-ordered association lists, regex searches over the
specific patterns used by the code become explicit left-to-right scans over
character lists, random jitter becomes a universally quantified parameter
constrained to the interval the code draws from, and the file system /
AI service become explicit optional inputs.
-/

/-! ## Generic string helpers (substring search as done by Python `in` / `re.search`) -/

/-- `startsWith p s` : the character list `p` is a prefix of `s`. -/
def startsWith : List Char → List Char → Bool
  | [], _ => true
  | _ :: _, [] => false
  | p :: ps, c :: cs => p == c && startsWith ps cs

/-- `containsSub p s` : `p` occurs as a contiguous substring of `s`
(Python's `p in s`). -/
def containsSub (p : List Char) : List Char → Bool
  | [] => startsWith p []
  | c :: cs => startsWith p (c :: cs) || containsSub p cs

/-- Lowercase a character list (Python `str.lower` on ASCII text). -/
def lowerChars (s : List Char) : List Char := s.map Char.toLower

/-- Numeric value of a digit run (Python `int` on the matched group). -/
def natOfDigits (ds : List Char) : Nat :=
  ds.foldl (fun a c => a * 10 + (c.toNat - 48)) 0

/-! ## Regex scans used by applicant-count extraction

The source uses `re.search` with three concrete patterns.  Each is embedded
as: try to match at the current position, else move one character right
(leftmost match, greedy maximal runs — the regexes' actual semantics since
no backtracking can shorten a maximal digit/whitespace run here). -/

/-- Match `\d+\s+applicant` anchored at the head of `s`, returning the
numeric value of the digit group. -/
def matchNumApplicant (s : List Char) : Option Nat :=
  let ds := s.takeWhile Char.isDigit
  let r1 := s.dropWhile Char.isDigit
  let ws := r1.takeWhile Char.isWhitespace
  let r2 := r1.dropWhile Char.isWhitespace
  if ds.isEmpty || ws.isEmpty then none
  else if startsWith "applicant".toList r2 then some (natOfDigits ds) else none

/-- `re.search(r'(\d+)\s+applicant', s)` : leftmost occurrence. -/
def searchNumApplicant : List Char → Option Nat
  | [] => none
  | c :: cs =>
    match matchNumApplicant (c :: cs) with
    | some n => some n
    | none => searchNumApplicant cs

/-- Match `lit\s+\d+` anchored at the head of `s` for a literal word `lit`,
returning the numeric value of the digit group. -/
def matchWordNum (lit : List Char) (s : List Char) : Option Nat :=
  if startsWith lit s then
    let r1 := (s.drop lit.length)
    let ws := r1.takeWhile Char.isWhitespace
    let r2 := r1.dropWhile Char.isWhitespace
    let ds := r2.takeWhile Char.isDigit
    if ws.isEmpty || ds.isEmpty then none else some (natOfDigits ds)
  else none

/-- `re.search(r'lit\s+(\d+)', s)` : leftmost occurrence. -/
def searchWordNum (lit : List Char) : List Char → Option Nat
  | [] => none
  | c :: cs =>
    match matchWordNum lit (c :: cs) with
    | some n => some n
    | none => searchWordNum lit cs

/-- Match a bare digit run anchored at the head of `s`. -/
def matchAnyNum (s : List Char) : Option Nat :=
  let ds := s.takeWhile Char.isDigit
  if ds.isEmpty then none else some (natOfDigits ds)

/-- `re.search(r'(\d+)', s)` : leftmost digit run. -/
def searchAnyNum : List Char → Option Nat
  | [] => none
  | c :: cs =>
    match matchAnyNum (c :: cs) with
    | some n => some n
    | none => searchAnyNum cs

/-! ## SmartFilter (src/modules/smart_filter.py) -/

/-- `SmartFilter.extract_applicant_count` (smart_filter.py, lines 160-191):
lowercases the text; if it contains "over", returns the first
`over\s+(\d+)` match plus a 50 buffer; else the first `(\d+)\s+applicant`
match; else, if it contains "first", half of the first `first\s+(\d+)`
match; else `None`. -/
def SmartFilter.extract_applicant_count (text : String) : Option Nat :=
  let t := lowerChars text.toList
  let step1 : Option Nat :=
    if containsSub "over".toList t then
      (searchWordNum "over".toList t).map (fun n => n + 50)
    else none
  match step1 with
  | some n => some n
  | none =>
    match searchNumApplicant t with
    | some n => some n
    | none =>
      if containsSub "first".toList t then
        (searchWordNum "first".toList t).map (fun n => n / 2)
      else none

/-- The text-parsing core of `extract_applicant_count` in smart_filters.py
(lines 46-60), given the applicant text found in the DOM: if the lowered
text contains "over", the first case-insensitive `over\s+(\d+)` match is
returned with no buffer; otherwise the first bare digit run. -/
def smart_filters.extract_applicant_count (applicant_text : String) : Option Nat :=
  let t := lowerChars applicant_text.toList
  let step1 : Option Nat :=
    if containsSub "over".toList t then searchWordNum "over".toList t
    else none
  match step1 with
  | some n => some n
  | none => searchAnyNum t

/-- `SmartFilter.should_skip_company` (smart_filter.py, lines 96-110): the
rejected-companies table is an insertion-ordered map from company name to
its recorded rejection count. -/
def SmartFilter.should_skip_company (companies : List (String × Nat))
    (company : String) (rejection_threshold : Nat) : Bool :=
  match companies.lookup company with
  | some rejection_count => decide (rejection_count ≥ rejection_threshold)
  | none => false

/-- `SmartFilter.calculate_job_priority` (smart_filter.py, lines 112-158).
All float arithmetic performed by the source on these inputs is exact, so
the score is computed in `ℚ`. -/
def SmartFilter.calculate_job_priority (applicant_count : Option ℤ)
    (days_posted : Option ℤ) (is_easy_apply : Bool)
    (company_rejection_count : ℤ) : ℚ :=
  let score : ℚ := 50
  let score : ℚ := match applicant_count with
    | some a =>
      if a < 10 then score + 20
      else if a < 50 then score + 10
      else if a > 200 then score - 20
      else score
    | none => score
  let score : ℚ := match days_posted with
    | some d =>
      if d = 0 then score + 15
      else if d ≤ 2 then score + 10
      else if d ≤ 7 then score + 5
      else if d > 30 then score - 10
      else score
    | none => score
  let score := if is_easy_apply then score + 10 else score
  let score := score - company_rejection_count * 5
  max 0 (min 100 score)

/-! ## Retry handler (src/modules/retry_handler.py) -/

/-- `exponential_backoff` (retry_handler.py, lines 15-24): the delay is
`base_delay * 2^attempt` plus a jitter; the source draws the jitter
uniformly from `[0, 0.1 * delay]`, modelled here as an explicit argument
(theorems constrain it to that interval). -/
def exponential_backoff (attempt : ℕ) (base_delay : ℚ) (jitter : ℚ) : ℚ :=
  base_delay * 2 ^ attempt + jitter

/-- The `for attempt in range(max_retries + 1)` loop of `retry_with_backoff`,
with `fuel` the number of retries still allowed after the current call and
`idx` the index of the current call.  A fallible function is embedded as the
sequence of outcomes of its successive calls. -/
def retryLoop (f : ℕ → Except ε α) (idx : ℕ) : ℕ → Except ε α × ℕ
  | 0 => (f idx, idx + 1)
  | fuel + 1 =>
    match f idx with
    | .ok a => (.ok a, idx + 1)
    | .error _ => retryLoop f (idx + 1) fuel

/-- `retry_with_backoff` (retry_handler.py, lines 27-59), abstracting from
sleeping and the retry callback: returns the outcome (the value returned,
or the last exception re-raised) together with the number of times the
function was invoked. -/
def retry_with_backoff (f : ℕ → Except ε α) (max_retries : ℕ) : Except ε α × ℕ :=
  retryLoop f 0 max_retries

/-! ## Session manager (src/modules/session_manager.py) -/

/-- `should_resume` (session_manager.py, lines 74-95).  The checkpoint file
state is `none` (no file), `some none` (file whose JSON lacks a usable
`timestamp`), or `some (some ts)` with `ts` the recorded timestamp in
seconds; `now` is the clock at the time of the check. -/
def should_resume (checkpoint_file : Option (Option ℚ)) (now : ℚ) : Bool :=
  match checkpoint_file with
  | none => false
  | some none => false
  | some (some ts) => decide ((now - ts) / 3600 < 24)

/-! ## ATS detector (src/modules/external/ats_detector.py) -/

/-- `ATS_PATTERNS` (ats_detector.py, lines 13-45), in dict insertion order. -/
def ATS_PATTERNS : List (String × List String) :=
  [ ("greenhouse", ["greenhouse.io", "boards.greenhouse.io", "job-boards.greenhouse.io"]),
    ("lever", ["lever.co", "jobs.lever.co"]),
    ("workday", ["myworkdayjobs.com", "wd1.myworkdayjobs.com", "wd5.myworkdayjobs.com"]),
    ("taleo", ["taleo.net", "tbe.taleo.net"]),
    ("icims", ["icims.com", "careers.icims.com"]),
    ("bamboohr", ["bamboohr.com"]),
    ("jobvite", ["jobvite.com"]),
    ("smartrecruiters", ["smartrecruiters.com"]) ]

/-- `ATS_DOM_SIGNATURES` (ats_detector.py, lines 48-58). -/
def ATS_DOM_SIGNATURES : List (String × List String) :=
  [ ("greenhouse",
      ["div[id*=\x22application\x22]", "div[class*=\x22application\x22]",
       "form[id*=\x22greenhouse\x22]"]),
    ("lever", ["div[class*=\x22posting\x22]", "div[class*=\x22application-form\x22]"]) ]

/-- The table scan shared by both detectors: first entry one of whose
needles satisfies `hit` wins, else "unknown". -/
def scanTable (hit : String → Bool) : List (String × List String) → String
  | [] => "unknown"
  | (name, needles) :: rest =>
    if needles.any hit then name else scanTable hit rest

/-- `detect_ats_from_url` (ats_detector.py, lines 61-74): case-insensitive
substring match of each pattern against the URL, in table order. -/
def detect_ats_from_url (url : String) : String :=
  scanTable (fun pat => containsSub pat.toList (lowerChars url.toList)) ATS_PATTERNS

/-- `detect_ats_from_dom` (ats_detector.py, lines 77-98): the live DOM is
abstracted as the predicate `dom` telling whether a CSS selector matches
any element (a selector error behaves as no match, as the source's
`except: continue` does). -/
def detect_ats_from_dom (dom : String → Bool) : String :=
  scanTable dom ATS_DOM_SIGNATURES

/-- `detect_ats_platform` (ats_detector.py, lines 101-115): URL detection
first, DOM detection only if the URL yields "unknown". -/
def detect_ats_platform (url : String) (dom : String → Bool) : String :=
  let ats := detect_ats_from_url url
  if ats ≠ "unknown" then ats else detect_ats_from_dom dom

/-! ## Gemini field classifier (src/modules/external/universal_form_filler.py) -/

/-- The fixed allow-list of categories named in the classification prompt
(universal_form_filler.py, line 71). -/
def GEMINI_ALLOWED_TAGS : List String :=
  ["first_name", "last_name", "full_name", "email", "phone", "linkedin",
   "website", "github", "address", "city", "state", "zip", "country",
   "resume", "cover_letter", "unknown"]

/-- Python `str.strip`: drop leading and trailing whitespace. -/
def stripChars (s : List Char) : List Char :=
  ((s.dropWhile Char.isWhitespace).reverse.dropWhile Char.isWhitespace).reverse

/-- `classify_field_with_gemini` (universal_form_filler.py, lines 53-84):
the AI call either raises (network error, malformed response — any
exception) or returns a response string; the source returns the stripped,
lowercased response text and converts any exception to "unknown". -/
def classify_field_with_gemini (response : Except ε String) : String :=
  match response with
  | .error _ => "unknown"
  | .ok r => String.mk (lowerChars (stripChars r.toList))

/-! ## Field knowledge base (src/modules/external/field_knowledge_base.py) -/

/-- Update an insertion-ordered association list at key `k` with `f`,
starting from `d` when the key is absent (Python's
`m.setdefault(k, d); m[k] = f(m[k])` pattern: new keys append at the end,
as dict insertion order does). -/
def updAssoc (k : String) (f : β → β) (d : β) : List (String × β) → List (String × β)
  | [] => [(k, f d)]
  | (a, v) :: rest =>
    if a = k then (a, f v) :: rest else (a, v) :: updAssoc k f d rest

/-- In-memory state of `FieldKnowledgeBase.knowledge`: `field_mappings`
maps a field identifier to per-type occurrence counts; a nested
`ats_specific_mappings` maps a platform, then a field identifier, to the
learned type.  Both are insertion-ordered as Python dicts are. -/
structure FieldKnowledgeBase where
  field_mappings : List (String × List (String × Nat))
  ats_specific_mappings : List (String × List (String × String))
deriving DecidableEq, Repr

/-- The knowledge base constructed when no persisted file exists
(field_knowledge_base.py, lines 36-40). -/
def FieldKnowledgeBase.empty : FieldKnowledgeBase := ⟨[], []⟩

/-- `FieldKnowledgeBase.learn_field_mapping` (field_knowledge_base.py,
lines 50-85): increments the general occurrence count for
`(field_identifier, field_type)`, and, when the platform is not "unknown",
records the platform-specific mapping only if none exists yet for that
`(platform, identifier)` pair. -/
def FieldKnowledgeBase.learn_field_mapping (kb : FieldKnowledgeBase)
    (field_identifier field_type ats_platform : String) : FieldKnowledgeBase :=
  let fm := updAssoc field_identifier
    (fun m => updAssoc field_type (fun n => n + 1) 0 m) [] kb.field_mappings
  let ats :=
    if ats_platform ≠ "unknown" then
      updAssoc ats_platform
        (fun m => updAssoc field_identifier (fun t => t) field_type m) []
        kb.ats_specific_mappings
    else kb.ats_specific_mappings
  ⟨fm, ats⟩

/-- Python's `max(mappings, key=mappings.get)` over an insertion-ordered
dict: the first key whose count no later key strictly exceeds. -/
def maxByCount : List (String × Nat) → Option String
  | [] => none
  | (k, n) :: rest => some (maxByCountGo k n rest)
where
  maxByCountGo (best : String) (bn : Nat) : List (String × Nat) → String
    | [] => best
    | (k, n) :: rest =>
      if n > bn then maxByCountGo k n rest else maxByCountGo best bn rest

/-- `FieldKnowledgeBase.get_field_type` (field_knowledge_base.py, lines
87-109): the platform-specific mapping is consulted first (when the
platform is known), then the general mapping resolved by majority vote. -/
def FieldKnowledgeBase.get_field_type (kb : FieldKnowledgeBase)
    (field_identifier ats_platform : String) : Option String :=
  let specific : Option String :=
    if ats_platform ≠ "unknown" then
      (kb.ats_specific_mappings.lookup ats_platform).bind
        (fun m => m.lookup field_identifier)
    else none
  match specific with
  | some t => some t
  | none =>
    match kb.field_mappings.lookup field_identifier with
    | some m => maxByCount m
    | none => none

/-- The platform-specific lookup performed first by `get_field_type`:
the type recorded for `field_identifier` under `ats_platform`, if any. -/
def FieldKnowledgeBase.platform_mapping (kb : FieldKnowledgeBase)
    (ats_platform field_identifier : String) : Option String :=
  (kb.ats_specific_mappings.lookup ats_platform).bind
    (fun m => m.lookup field_identifier)

/-- `learn_field_mapping` iterated `n` times with the same arguments. -/
def learnN (kb : FieldKnowledgeBase) (id t p : String) : ℕ → FieldKnowledgeBase
  | 0 => kb
  | n + 1 => (learnN kb id t p n).learn_field_mapping id t p

/-! ## Theorems -/

/-- The clamp `max 0 (min 100 s)` is nonnegative. -/
theorem clamp_nonneg (s : ℚ) : 0 ≤ max 0 (min 100 s) := le_max_left 0 _

/-- The clamp `max 0 (min 100 s)` is at most 100. -/
theorem clamp_le_hundred (s : ℚ) : max 0 (min 100 s) ≤ 100 :=
  max_le (by norm_num) (min_le_left _ _)

/-- C7: `calculate_job_priority(5, 0, True, 0)` equals 95
(base 50 + 20 for fewer than 10 applicants + 15 for same-day posting
+ 10 for easy apply), and every score lies in [0, 100]. -/
theorem calculate_job_priority_spec :
    SmartFilter.calculate_job_priority (some 5) (some 0) true 0 = 95 ∧
    ∀ (a d : Option ℤ) (e : Bool) (c : ℤ),
      0 ≤ SmartFilter.calculate_job_priority a d e c ∧
      SmartFilter.calculate_job_priority a d e c ≤ 100 := by
  refine ⟨by norm_num [SmartFilter.calculate_job_priority], ?_⟩
  intro a d e c
  simp only [SmartFilter.calculate_job_priority]
  exact ⟨clamp_nonneg _, clamp_le_hundred _⟩

/-- C6: `should_skip_company` returns true exactly when the company's
recorded rejection count is at least the threshold; with threshold 2 a
company with 2 rejections is skipped, one with 1 rejection is not, and a
company absent from the table is never skipped. -/
theorem should_skip_company_spec :
    (∀ (companies : List (String × Nat)) (company : String) (threshold : Nat),
      SmartFilter.should_skip_company companies company threshold = true ↔
        ∃ rc, companies.lookup company = some rc ∧ threshold ≤ rc) ∧
    SmartFilter.should_skip_company [("Acme", 2)] "Acme" 2 = true ∧
    SmartFilter.should_skip_company [("Beta", 1)] "Beta" 2 = false ∧
    SmartFilter.should_skip_company [("Acme", 2)] "Gamma" 2 = false := by
  refine ⟨?_, by decide, by decide, by decide⟩
  intro companies company threshold
  unfold SmartFilter.should_skip_company
  cases h : companies.lookup company with
  | none => simp [h]
  | some rc => simp [h]

/-- C5: `should_resume` is true exactly when a checkpoint exists, carries a
timestamp, and that timestamp is less than 24 hours old at the time of the
check; in particular a 25-hour-old checkpoint yields false and a
1-hour-old one yields true. -/
theorem should_resume_spec :
    ∀ (checkpoint_file : Option (Option ℚ)) (now : ℚ),
      (should_resume checkpoint_file now = true ↔
        ∃ ts, checkpoint_file = some (some ts) ∧ (now - ts) / 3600 < 24) ∧
      should_resume (some (some (now - 25 * 3600))) now = false ∧
      should_resume (some (some (now - 3600))) now = true := by
  intro checkpoint_file now
  refine ⟨?_, ?_, ?_⟩
  · match checkpoint_file with
    | none => simp [should_resume]
    | some none => simp [should_resume]
    | some (some ts) => simp [should_resume]
  · simp only [should_resume, decide_eq_false_iff_not, not_lt]
    have : (now - (now - 25 * 3600)) / 3600 = 25 := by ring
    rw [this]; norm_num
  · simp only [should_resume, decide_eq_true_eq]
    have : (now - (now - 3600)) / 3600 = 1 := by ring
    rw [this]; norm_num

/-- When every call fails, the retry loop consumes all its fuel, calling
the function once per unit of fuel plus once more, and ends on the last
call's error. -/
theorem retryLoop_all_fail {ε α : Type} (f : ℕ → Except ε α)
    (h : ∀ n, ∃ e, f n = Except.error e) :
    ∀ (fuel idx : ℕ), retryLoop f idx fuel = (f (idx + fuel), idx + fuel + 1) := by
  intro fuel
  induction fuel with
  | zero => intro idx; simp [retryLoop]
  | succ n ih =>
    intro idx
    obtain ⟨e, he⟩ := h idx
    have h2 : idx + 1 + n = idx + (n + 1) := by omega
    simp only [retryLoop, he]
    rw [ih (idx + 1), h2]

/-- C2: a function failing on every call is invoked exactly 4 times by
`retry_with_backoff` with `max_retries = 3`, and the failure of the 4th
invocation is re-raised — no value is ever returned. -/
theorem retry_exhausts_and_reraises {ε α : Type} (f : ℕ → Except ε α)
    (h : ∀ n, ∃ e, f n = Except.error e) :
    ∃ e, f 3 = Except.error e ∧
      retry_with_backoff f 3 = (Except.error e, 4) := by
  obtain ⟨e3, h3⟩ := h 3
  refine ⟨e3, h3, ?_⟩
  have hall := retryLoop_all_fail f h 3 0
  simp only [Nat.zero_add] at hall
  rw [retry_with_backoff, hall, h3]

/-- Witness for C2: the always-failing function returning its call index
as the error is called 4 times and the error of call 3 is re-raised. -/
theorem retry_exhausts_and_reraises_witness :
    ∃ e, (fun n => (Except.error n : Except ℕ ℕ)) 3 = Except.error e ∧
      retry_with_backoff (fun n => (Except.error n : Except ℕ ℕ)) 3 =
        (Except.error e, 4) :=
  retry_exhausts_and_reraises (fun n => (Except.error n : Except ℕ ℕ))
    (fun n => ⟨n, rfl⟩)

/-- C9: the computed backoff delay is `base_delay * 2^attempt + jitter`,
and for any jitter of attempt `a` within the drawn interval
`[0, 0.1 * (base_delay * 2^a)]` and any nonnegative jitter of attempt
`a+1`, the delay of attempt `a+1` strictly exceeds that of attempt `a`. -/
theorem exponential_backoff_spec :
    ∀ (a : ℕ) (b j j' : ℚ), 0 < b → 0 ≤ j → j ≤ b * 2 ^ a * (1 / 10) → 0 ≤ j' →
      exponential_backoff a b j = b * 2 ^ a + j ∧
      exponential_backoff a b j < exponential_backoff (a + 1) b j' := by
  intro a b j j' hb hj hub hj'
  refine ⟨rfl, ?_⟩
  unfold exponential_backoff
  have hpos : (0 : ℚ) < b * 2 ^ a := by positivity
  rw [pow_succ]
  nlinarith [hpos, hj, hub, hj']

/-- Witness for C9: at attempt 0 with base delay 2 and the maximal drawn
jitter 1/5, the next attempt's jitter-free delay is still larger. -/
theorem exponential_backoff_spec_witness :
    exponential_backoff 0 2 (1 / 5) = 2 * 2 ^ 0 + 1 / 5 ∧
    exponential_backoff 0 2 (1 / 5) < exponential_backoff (0 + 1) 2 0 :=
  exponential_backoff_spec 0 2 (1 / 5) 0 (by norm_num) (by norm_num)
    (by norm_num) (by norm_num)

/-- Counterexample for C4: a successful AI call whose response label
"Banana" lies outside the allow-list is returned as "banana" — not mapped
to "unknown" — because the source never validates the response against the
allow-list. -/
theorem classify_field_with_gemini_counterexample :
    classify_field_with_gemini (Except.ok "Banana" : Except Unit String) = "banana" ∧
    "banana" ∉ GEMINI_ALLOWED_TAGS ∧
    classify_field_with_gemini (Except.ok "Banana" : Except Unit String) ≠ "unknown" := by
  refine ⟨rfl, by decide, by decide⟩

/-- C4 (amended): any failure of the AI call yields "unknown" and never
propagates; a successful call's response is returned stripped and
lowercased with no allow-list validation, so out-of-list labels pass
through unchanged. -/
theorem classify_field_with_gemini_spec {ε : Type} :
    (∀ e : ε, classify_field_with_gemini (Except.error e) = "unknown") ∧
    ∀ r : String,
      classify_field_with_gemini (Except.ok r : Except ε String) =
        String.mk (lowerChars (stripChars r.toList)) :=
  ⟨fun _ => rfl, fun _ => rfl⟩

/-- C3: both extraction sites agree with the claim on "37 applicants" and
"Over 100 applicants" (returning 37, and 150 resp. 100, both ≥ 100), but
on "Be in the first 50 applicants" both return 50, not the 25 the claim
(and the source's own comment on its `first` branch) promise: the generic
digits-then-"applicant" pattern matches first, leaving the N/2 branch
unreachable for that phrasing. -/
theorem extract_applicant_count_eval :
    SmartFilter.extract_applicant_count "37 applicants" = some 37 ∧
    SmartFilter.extract_applicant_count "Over 100 applicants" = some 150 ∧
    SmartFilter.extract_applicant_count "Be in the first 50 applicants" = some 50 ∧
    smart_filters.extract_applicant_count "37 applicants" = some 37 ∧
    smart_filters.extract_applicant_count "Over 100 applicants" = some 100 ∧
    smart_filters.extract_applicant_count "Be in the first 50 applicants" = some 50 := by
  refine ⟨by decide, by decide, by decide, by decide, by decide, by decide⟩

/-- A scan over a signature table none of whose platform names is
"unknown" returns "unknown" only when no needle of any entry hits. -/
theorem scanTable_unknown_no_hit {hit : String → Bool} :
    ∀ table : List (String × List String),
      (∀ e ∈ table, e.1 ≠ "unknown") →
      scanTable hit table = "unknown" →
      ∀ e ∈ table, ∀ p ∈ e.2, hit p = false := by
  intro table
  induction table with
  | nil => intro _ _ e he; exact absurd he (List.not_mem_nil e)
  | cons hd tl ih =>
    obtain ⟨name, needles⟩ := hd
    intro hnames hscan e he p hp
    by_cases hany : needles.any hit
    · exfalso
      rw [scanTable, if_pos hany] at hscan
      exact hnames (name, needles) (List.mem_cons_self _ _) hscan
    · rw [scanTable, if_neg hany] at hscan
      rcases List.mem_cons.mp he with rfl | he'
      · have := (List.any_eq_true.not.mp hany)
        push_neg at this
        have h' := this p hp
        simpa using h'
      · exact ih (fun e' he'' => hnames e' (List.mem_cons_of_mem _ he''))
          hscan e he' p hp

/-- Counterexample for C8: "lever.co" is a known fragment of the lever
platform, and this URL contains it, yet detection resolves to
"greenhouse" (greenhouse precedes lever in the pattern table and the URL
also contains "greenhouse.io"), so "returns that platform" fails for
lever. -/
theorem detect_ats_platform_counterexample :
    ("lever", ["lever.co", "jobs.lever.co"]) ∈ ATS_PATTERNS ∧
    containsSub "lever.co".toList
      (lowerChars "https://jobs.lever.co/a?ref=boards.greenhouse.io".toList) = true ∧
    detect_ats_platform "https://jobs.lever.co/a?ref=boards.greenhouse.io"
      (fun _ => false) = "greenhouse" ∧
    ("greenhouse" : String) ≠ "lever" := by
  refine ⟨by decide, by decide, by decide, by decide⟩

/-- C8 (amended): whenever URL matching succeeds, detection returns its
result — the first platform in table order with a matching fragment —
without consulting the DOM; a URL containing "boards.greenhouse.io"
always resolves to greenhouse regardless of the DOM; the DOM is probed
exactly when URL matching yields "unknown"; and URL matching succeeds
whenever the URL contains any known fragment. -/
theorem detect_ats_platform_spec :
    (∀ (url : String) (dom : String → Bool),
      detect_ats_from_url url ≠ "unknown" →
        detect_ats_platform url dom = detect_ats_from_url url) ∧
    (∀ (url : String) (dom : String → Bool),
      containsSub "boards.greenhouse.io".toList (lowerChars url.toList) = true →
        detect_ats_platform url dom = "greenhouse") ∧
    (∀ (url : String) (dom : String → Bool),
      detect_ats_from_url url = "unknown" →
        detect_ats_platform url dom = detect_ats_from_dom dom) ∧
    (∀ url : String,
      (∃ e ∈ ATS_PATTERNS, ∃ p ∈ e.2,
        containsSub p.toList (lowerChars url.toList) = true) →
      detect_ats_from_url url ≠ "unknown") := by
  refine ⟨?_, ?_, ?_, ?_⟩
  · intro url dom h
    simp only [detect_ats_platform, if_pos h]
  · intro url dom h
    have hurl : detect_ats_from_url url = "greenhouse" := by
      unfold detect_ats_from_url ATS_PATTERNS scanTable
      have : ["greenhouse.io", "boards.greenhouse.io",
          "job-boards.greenhouse.io"].any
          (fun pat => containsSub pat.toList (lowerChars url.toList)) = true := by
        simp only [List.any_cons, List.any_nil, h, Bool.or_true, Bool.true_or,
          Bool.or_false]
      rw [if_pos this]
    simp only [detect_ats_platform, hurl]
    rw [if_pos (by decide)]
  · intro url dom h
    simp only [detect_ats_platform, h]
    rw [if_neg (by simp)]
  · intro url ⟨e, he, p, hp, hhit⟩ hunk
    have := scanTable_unknown_no_hit ATS_PATTERNS (by decide) hunk e he p hp
    rw [hhit] at this
    exact absurd this (by decide)

/-- Witness for C8: each conjunct of the amended statement applied at a
concrete URL/DOM, discharging its hypothesis there. -/
theorem detect_ats_platform_spec_witness :
    detect_ats_platform "https://jobs.lever.co/acme" (fun _ => false) =
      detect_ats_from_url "https://jobs.lever.co/acme" ∧
    detect_ats_platform "https://boards.greenhouse.io/acme" (fun _ => false) =
      "greenhouse" ∧
    detect_ats_platform "https://example.com/jobs" (fun _ => true) =
      detect_ats_from_dom (fun _ => true) ∧
    detect_ats_from_url "https://jobs.lever.co/acme" ≠ "unknown" :=
  ⟨detect_ats_platform_spec.1 "https://jobs.lever.co/acme" (fun _ => false)
      (by decide),
   detect_ats_platform_spec.2.1 "https://boards.greenhouse.io/acme"
      (fun _ => false) (by decide),
   detect_ats_platform_spec.2.2.1 "https://example.com/jobs" (fun _ => true)
      (by decide),
   detect_ats_platform_spec.2.2.2 "https://jobs.lever.co/acme"
      ⟨("lever", ["lever.co", "jobs.lever.co"]), by decide,
        "lever.co", by decide, by decide⟩⟩

/-! ## Knowledge-base lemmas -/

/-- Looking up the updated key after `updAssoc` yields the function applied
to the previous value (or to the default when the key was absent). -/
theorem lookup_updAssoc (k : String) (f : β → β) (d : β) :
    ∀ xs : List (String × β),
      (updAssoc k f d xs).lookup k = some (f ((xs.lookup k).getD d)) := by
  intro xs
  induction xs with
  | nil => simp [updAssoc, List.lookup]
  | cons hd tl ih =>
    obtain ⟨a, v⟩ := hd
    by_cases h : a = k
    · subst h
      simp [updAssoc, List.lookup]
    · have h' : (k == a) = false := by
        simp [beq_eq_false_iff_ne]
        exact fun hk => h hk.symm
      simp [updAssoc, h, List.lookup, h', ih]

/-- Learning with platform "unknown" leaves the platform-specific
mappings untouched. -/
theorem learn_unknown_ats (kb : FieldKnowledgeBase) (id t : String) :
    (kb.learn_field_mapping id t "unknown").ats_specific_mappings =
      kb.ats_specific_mappings := by
  simp only [FieldKnowledgeBase.learn_field_mapping]
  rw [if_neg (by decide)]

/-- Teaching `(id, t)` `m` times to a fresh knowledge base with platform
"unknown" yields the single general entry `id ↦ {t ↦ m}` and no
platform-specific entries. -/
theorem learnN_fresh_shape (id t : String) :
    ∀ m : ℕ, learnN FieldKnowledgeBase.empty id t "unknown" m =
      ⟨if m = 0 then [] else [(id, [(t, m)])], []⟩ := by
  intro m
  induction m with
  | zero => simp [learnN, FieldKnowledgeBase.empty]
  | succ m ih =>
    rw [learnN, ih]
    by_cases hm : m = 0
    · simp [hm, FieldKnowledgeBase.learn_field_mapping, updAssoc]
    · simp [hm, FieldKnowledgeBase.learn_field_mapping, updAssoc]

/-- Then teaching `(id, t2)` (with `t2 ≠ t`) `k` more times appends `t2`
with count `k` after `t`'s entry, still with no platform-specific
entries. -/
theorem learnN_second_shape (id t t2 : String) (m : ℕ) (h : t ≠ t2) :
    ∀ k : ℕ,
      learnN ⟨[(id, [(t, m)])], []⟩ id t2 "unknown" k =
        ⟨[(id, if k = 0 then [(t, m)] else [(t, m), (t2, k)])], []⟩ := by
  intro k
  induction k with
  | zero => simp [learnN]
  | succ k ih =>
    rw [learnN, ih]
    by_cases hk : k = 0
    · simp [hk, FieldKnowledgeBase.learn_field_mapping, updAssoc, h]
    · simp [hk, FieldKnowledgeBase.learn_field_mapping, updAssoc, h]

/-- On a knowledge base whose only entry is general, `get_field_type`
with platform "unknown" is the majority vote over that entry. -/
theorem get_single_general (id : String) (L : List (String × Nat)) :
    (FieldKnowledgeBase.mk [(id, L)] []).get_field_type id "unknown" =
      maxByCount L := by
  simp [FieldKnowledgeBase.get_field_type, List.lookup]

/-- Python's `max` over the two-entry counts `{t ↦ m, t2 ↦ k}` picks `t2`
exactly when its count strictly exceeds `m` (ties keep the first key). -/
theorem maxByCount_pair (t t2 : String) (m k : ℕ) :
    maxByCount [(t, m), (t2, k)] = some (if m < k then t2 else t) := by
  simp [maxByCount, maxByCount.maxByCountGo]

/-- Counterexample for C1: on platform "greenhouse", after teaching
`("f", "a")` once and `("f", "b")` twice, "b"'s occurrence count (2)
exceeds "a"'s (1), yet `get_field_type` still returns "a" — the
write-once platform-specific entry is consulted before the majority
vote, so the switch the claim asserts for every platform never happens. -/
theorem kb_majority_switch_counterexample :
    ((((FieldKnowledgeBase.empty.learn_field_mapping "f" "a" "greenhouse"
        ).learn_field_mapping "f" "b" "greenhouse"
        ).learn_field_mapping "f" "b" "greenhouse").field_mappings =
      [("f", [("a", 1), ("b", 2)])]) ∧
    (((FieldKnowledgeBase.empty.learn_field_mapping "f" "a" "greenhouse"
        ).learn_field_mapping "f" "b" "greenhouse"
        ).learn_field_mapping "f" "b" "greenhouse").get_field_type
      "f" "greenhouse" = some "a" := by
  refine ⟨by decide, by decide⟩

/-- C1 (amended): the round-trip holds for every platform — teaching a
fresh knowledge base `(id, t, p)` makes `get_field_type id p` return `t` —
and the majority-vote switch holds for platform "unknown": after teaching
`t` `m ≥ 1` times and a different `t2` `k` times, the lookup returns `t2`
exactly when `t2`'s count `k` exceeds `t`'s count `m` (for a platform
other than "unknown" the write-once platform-specific entry keeps
returning the first-taught type instead). -/
theorem kb_round_trip_and_majority :
    ∀ (id t t2 p : String) (m k : ℕ), t ≠ t2 → 1 ≤ m →
      (FieldKnowledgeBase.empty.learn_field_mapping id t p).get_field_type
          id p = some t ∧
      (learnN (learnN FieldKnowledgeBase.empty id t "unknown" m)
          id t2 "unknown" k).get_field_type id "unknown" =
        some (if m < k then t2 else t) := by
  intro id t t2 p m k ht hm
  constructor
  · by_cases hp : p = "unknown"
    · subst hp
      simp [FieldKnowledgeBase.empty, FieldKnowledgeBase.learn_field_mapping,
        updAssoc, FieldKnowledgeBase.get_field_type, List.lookup, maxByCount,
        maxByCount.maxByCountGo]
    · simp [FieldKnowledgeBase.empty, FieldKnowledgeBase.learn_field_mapping,
        updAssoc, FieldKnowledgeBase.get_field_type, List.lookup, hp]
  · rw [learnN_fresh_shape, if_neg (by omega)]
    rw [learnN_second_shape id t t2 m ht k]
    by_cases hk : k = 0
    · subst hk
      rw [if_pos rfl, get_single_general]
      simp [maxByCount, maxByCount.maxByCountGo]
    · rw [if_neg hk, get_single_general, maxByCount_pair]

/-- Witness for C1 (amended): with platform "g" the round-trip returns
"a"; with platform "unknown", after "a" once and "b" twice the lookup has
switched to "b". -/
theorem kb_round_trip_and_majority_witness :
    (FieldKnowledgeBase.empty.learn_field_mapping "f" "a" "g").get_field_type
        "f" "g" = some "a" ∧
    (learnN (learnN FieldKnowledgeBase.empty "f" "a" "unknown" 1)
        "f" "b" "unknown" 2).get_field_type "f" "unknown" =
      some (if 1 < 2 then "b" else "a") :=
  kb_round_trip_and_majority "f" "a" "b" "g" 1 2 (by decide) (by decide)

/-- C10: platform-specific entries are write-once — once `(p, id)` maps to
`t` (for `p ≠ "unknown"`), any later teaching of any `t2` for `(id, p)`
leaves the platform-specific entry equal to `t`, and the platform-scoped
`get_field_type` keeps returning `t`. -/
theorem kb_platform_write_once :
    ∀ (kb : FieldKnowledgeBase) (id t t2 p : String), p ≠ "unknown" →
      kb.platform_mapping p id = some t →
      (kb.learn_field_mapping id t2 p).platform_mapping p id = some t ∧
      (kb.learn_field_mapping id t2 p).get_field_type id p = some t := by
  intro kb id t t2 p hp hm
  obtain ⟨m', h1, h2⟩ := Option.bind_eq_some.mp hm
  have hats : (kb.learn_field_mapping id t2 p).ats_specific_mappings =
      updAssoc p (fun m => updAssoc id (fun x => x) t2 m) []
        kb.ats_specific_mappings := by
    simp only [FieldKnowledgeBase.learn_field_mapping]
    rw [if_pos hp]
  have hplat : (kb.learn_field_mapping id t2 p).platform_mapping p id = some t := by
    rw [FieldKnowledgeBase.platform_mapping, hats, lookup_updAssoc, h1]
    simp only [Option.getD_some, Option.some_bind]
    rw [lookup_updAssoc, h2]
    simp
  refine ⟨hplat, ?_⟩
  rw [FieldKnowledgeBase.get_field_type]
  rw [if_pos hp]
  rw [FieldKnowledgeBase.platform_mapping] at hplat
  rw [hplat]

/-- Witness for C10: "g"'s entry for "f" was first taught "a"; after a
later teaching of "b" both the platform entry and the lookup still give
"a". -/
theorem kb_platform_write_once_witness :
    ((FieldKnowledgeBase.empty.learn_field_mapping "f" "a" "g"
        ).learn_field_mapping "f" "b" "g").platform_mapping "g" "f" = some "a" ∧
    ((FieldKnowledgeBase.empty.learn_field_mapping "f" "a" "g"
        ).learn_field_mapping "f" "b" "g").get_field_type "f" "g" = some "a" :=
  kb_platform_write_once (FieldKnowledgeBase.empty.learn_field_mapping "f" "a" "g")
    "f" "a" "b" "g" (by decide) (by decide)
